import Mathlib

/-!
# Verification of the self-improvement pipeline

A shallow embedding, in Lean 4, of the core of the `self-improving-agent`
repository: feedback classification (`src/agent/core/feedback.py`), the
prompt version store (`src/agent/storage/prompts.py`), the analyzer and
versioner tool loops (`src/agent/agents/analyzer.py`,
`src/agent/agents/versioner.py`) and the improvement orchestrator
(`src/agent/core/orchestrator.py`).

Modelling conventions:
* Python strings become `String`; `len` is the code-point count, matching
  Python semantics.
* Python floats carrying confidences and thresholds become `ℚ`; the code
  only compares and copies them, so this is faithful for every value the
  claims mention.
* Python dynamic dicts received from the reasoning backend become
  structures whose `.get`-accessed keys are `Option` fields.
* Calls to an external reasoning backend are replaced by a *script*: the
  finite list of responses the backend returns, one per loop iteration.
* Wall-clock reads (timestamps, durations) are external inputs; they never
  influence control flow in the source and are threaded as parameters or
  fixed to a placeholder.
-/

namespace SelfImprove

/-! ## String helpers shared by several components

Python's `in` operator on strings (substring test) and `str.strip`,
modelled on the character lists underlying `String`.  `pyStrip` models
`str.strip()` for ASCII whitespace, which covers every string the
specification and the claims mention. -/

/-- `leadsWith kw l` is true when the character list `l` starts with `kw`. -/
def leadsWith : List Char → List Char → Bool
  | [], _ => true
  | _ :: _, [] => false
  | k :: ks, c :: cs => k == c && leadsWith ks cs

/-- `containsSub kw l`: the character list `kw` occurs contiguously in `l`
(Python's `kw in l`; the empty keyword occurs in every string). -/
def containsSub (kw : List Char) : List Char → Bool
  | [] => kw.isEmpty
  | c :: rest => leadsWith kw (c :: rest) || containsSub kw rest

/-- Python's `kw in text` on strings. -/
def strContains (text kw : String) : Bool :=
  containsSub kw.data text.data

/-- ASCII whitespace as recognised by Python's `str.strip()`. -/
def isPySpace (c : Char) : Bool :=
  c == ' ' || c == '\t' || c == '\n' || c == '\r' || c == '\x0b' || c == '\x0c'

/-- Python's `str.strip()` (ASCII-whitespace fragment). -/
def pyStrip (s : String) : String :=
  String.mk (((s.data.dropWhile isPySpace).reverse.dropWhile isPySpace).reverse)

/-! ## Feedback (`src/agent/core/feedback.py`) -/

/-- The `Feedback` dataclass. -/
structure Feedback where
  type : String
  category : String
  raw_text : String
  confidence : ℚ
  triggered_improvement : Bool
  deriving Repr, DecidableEq

/-- The `config.thresholds` section of `config.py` consumed by the core. -/
structure Thresholds where
  feedback_confidence : ℚ
  improvement_confidence : ℚ
  deriving Repr, DecidableEq

/-- `Feedback.should_trigger_improvement`.  The source reads the global
`config.thresholds.feedback_confidence`; the configuration is passed
explicitly here. -/
def Feedback.should_trigger_improvement (cfg : Thresholds) (f : Feedback) : Bool :=
  if f.type = "negative" ∧ cfg.feedback_confidence ≤ f.confidence then
    true
  else if f.category = "explicit" then
    true
  else
    false

/-! ## Feedback detection (`FeedbackDetector`, `src/agent/core/feedback.py`)

`detect` lower-cases the message, runs the two compiled pattern sets, and
classifies.  The regular-expression engine (`re`) is external to this
development, so the two Boolean pattern-set outcomes computed by
`_match_patterns` are passed to `detect` as parameters; everything after
that point is embedded from the source.  The detector is modelled with no
LLM client configured (the constructor default `client=None`), so the
both-or-neither branch returns no feedback. -/

/-- Python `str.lower()`, restricted to ASCII and Cyrillic — the two
alphabets occurring in the detector's keyword and pattern tables. -/
def pyToLower (c : Char) : Char :=
  if 0x41 ≤ c.toNat ∧ c.toNat ≤ 0x5A then Char.ofNat (c.toNat + 0x20)
  else if 0x410 ≤ c.toNat ∧ c.toNat ≤ 0x42F then Char.ofNat (c.toNat + 0x20)
  else if c.toNat = 0x401 then Char.ofNat 0x451
  else c

/-- Python `str.lower()` on a whole string. -/
def pyLower (s : String) : String :=
  String.mk (s.data.map pyToLower)

/-- `FeedbackDetector.CATEGORY_KEYWORDS`, in declaration order. -/
def CATEGORY_KEYWORDS : List (String × List String) :=
  [("verbosity",
    ["длинн", "коротк", "многословн", "кратк", "подробн",
     "long", "short", "verbose", "brief", "concise", "detailed"]),
   ("accuracy",
    ["неправильн", "ошиб", "некорректн", "неверн", "правильн",
     "wrong", "incorrect", "error", "mistake", "accurate", "right"]),
   ("clarity",
    ["понятн", "ясн", "сложн", "запутан", "прост",
     "clear", "unclear", "confusing", "simple", "understand"]),
   ("format",
    ["формат", "оформлен", "структур", "код", "список",
     "format", "structure", "code", "list", "layout"]),
   ("tone",
    ["тон", "грубо", "формальн", "неформальн", "вежлив",
     "tone", "rude", "formal", "informal", "polite"]),
   ("relevance",
    ["не то", "не о том", "другое", "тему", "вопрос",
     "off-topic", "irrelevant", "different", "topic", "question"])]

/-- `sum(1 for kw in keywords if kw in text_lower)`. -/
def categoryScore (text : String) (kws : List String) : Nat :=
  kws.countP fun kw => strContains text kw

/-- The `(category, score)` pairs for the whole keyword table. -/
def scoresOf (text : String) : List (String × Nat) :=
  CATEGORY_KEYWORDS.map fun p => (p.1, categoryScore text p.2)

/-- Python's `max(d, key=d.get)` over an insertion-ordered dict: scan the
entries, replacing the current best only on a strictly larger score, so
the earliest key reaching the maximum wins. -/
def maxGo (best : String × Nat) : List (String × Nat) → String × Nat
  | [] => best
  | p :: rest => maxGo (if best.2 < p.2 then p else best) rest

/-- The selection `_detect_category` performs on a scored table:
keep the positive scores and take Python's `max` over them. -/
def detectCatOf (l : List (String × Nat)) : String :=
  match l.filter (fun p => 0 < p.2) with
  | [] => "general"
  | p :: rest => (maxGo p rest).1

/-- `FeedbackDetector._detect_category` (the function lower-cases its
argument again even though `detect` passes `message_lower`). -/
def detect_category (text : String) : String :=
  detectCatOf (scoresOf (pyLower text))

/-- `FeedbackDetector.detect`, with the two `_match_patterns` outcomes as
parameters (see the section comment). -/
def detect (negative_match positive_match : Bool) (message : String) :
    Option Feedback :=
  let message_lower := pyLower message
  if negative_match && !positive_match then
    some { type := "negative"
           category := detect_category message_lower
           raw_text := message
           confidence := 85/100
           triggered_improvement := true }
  else if positive_match && !negative_match then
    some { type := "positive"
           category := detect_category message_lower
           raw_text := message
           confidence := 80/100
           triggered_improvement := false }
  else
    none

/-- The maximum score of a scored table (`0` for the empty table). -/
def maxScore (l : List (String × Nat)) : Nat :=
  (l.map Prod.snd).foldr max 0

/-- Modelled from the spec: «a category chosen by keyword-overlap scoring
across a fixed category→keyword table (tie-break: first category reaching
the maximum score in table-declaration order)», and `"general"` when no
keyword matches.  Stated over a scored table; compared with `detectCatOf`
below. -/
def specCatOf (l : List (String × Nat)) : String :=
  let m := maxScore l
  if m = 0 then "general"
  else
    match l.find? (fun p => p.2 == m) with
    | some p => p.1
    | none => "general"

/-- The spec-side category choice for a message (lower-cased twice, in
step with the source's `detect` → `_detect_category` call chain). -/
def specCategory (text : String) : String :=
  specCatOf (scoresOf (pyLower text))

/-! ## Prompt validation (`VersionerAgent._execute_tool`, branch
`validate_prompt`, `src/agent/agents/versioner.py` lines 280-305) -/

/-- `VersionerAgent.MAX_PROMPT_LENGTH`. -/
def MAX_PROMPT_LENGTH : Nat := 16000

/-- The issue string produced by the length check. -/
def lengthIssue (n : Nat) : String :=
  "Prompt too long: " ++ toString n ++ " chars (max: " ++ toString MAX_PROMPT_LENGTH ++ ")"

/-- The issue string produced by the emptiness check. -/
def emptyIssue : String := "Prompt is empty"

/-- The issue string produced by the template-marker check. -/
def templateIssue : String := "Prompt contains template syntax that may not be filled"

/-- The issue string produced by the structure check. -/
def structureIssue : String := "Long prompt without clear sections - consider adding headers"

/-- Result dict of the `validate_prompt` tool. -/
structure ValidationResult where
  valid : Bool
  length : Nat
  issues : List String
  estimated_tokens : Nat
  deriving Repr, DecidableEq

/-- The sequential `issues.append` calls of the `validate_prompt` branch,
in source order: length, emptiness, template markers, structure. -/
def validate_issues (prompt : String) : List String :=
  let issues : List String := []
  let issues := if MAX_PROMPT_LENGTH < prompt.length then
    issues ++ [lengthIssue prompt.length] else issues
  let issues := if pyStrip prompt = "" then issues ++ [emptyIssue] else issues
  let issues := if strContains prompt "\x7b\x7b" || strContains prompt "\x7d\x7d" then
    issues ++ [templateIssue] else issues
  let has_sections := strContains prompt "##" || strContains prompt "**"
  let issues := if 500 < prompt.length && !has_sections then
    issues ++ [structureIssue] else issues
  issues

/-- The `validate_prompt` tool. -/
def validate_prompt (prompt : String) : ValidationResult :=
  let issues := validate_issues prompt
  { valid := issues.isEmpty
    length := prompt.length
    issues := issues
    estimated_tokens := prompt.length / 4 }

/-! ## Prompt version store (`PromptManager`, `src/agent/storage/prompts.py`)

One `PromptManager` directory (`data/prompts/{agent_name}/`) is modelled
as a `PromptStore`: the version files in creation order plus the
`current.yaml` symlink as an index into that list.  Operations for
different agent identities touch disjoint directories, so the claims
about a single identity are stated over one `PromptStore`.  The wall
clock (`datetime.utcnow()`) is threaded as the `now` parameter; `glob`
returns the version files matching `v{NNN}_*` in an unspecified order,
modelled as creation order with `version_files[0]` the earliest match. -/

/-- The `metrics` block written into every new version record. -/
structure Metrics where
  sessions_count : Nat
  positive_feedback_rate : Option ℚ
  negative_feedback_rate : Option ℚ
  deriving Repr, DecidableEq

/-- One entry of the `changes` list stored in a version record. -/
structure ChangeDict where
  «section» : String
  change_type : String
  description : String
  hypothesis_id : String
  deriving Repr, DecidableEq

/-- The `improvement` dict built by `VersionerAgent._save_version` and
stored by `create_version`. -/
structure ImprovementInfo where
  trigger : String
  feedback_summary : String
  hypothesis_ids : List String
  analyzer_confidence : ℚ
  deriving Repr, DecidableEq

/-- One persisted version file (`v{NNN}_{timestamp}.yaml`). -/
structure VersionRecord where
  version : Nat
  created_at : String
  parent_version : Option Nat
  improvement : ImprovementInfo
  changes : List ChangeDict
  system_prompt : String
  metrics : Metrics
  author : String
  approved : Bool
  deriving Repr, DecidableEq

/-- One agent identity's prompt directory: version files in creation
order, and the `current.yaml` symlink as an index into them. -/
structure PromptStore where
  files : List VersionRecord
  active : Option Nat
  deriving Repr, DecidableEq

/-- The record the `current.yaml` symlink resolves to, if any. -/
def activeRecord (s : PromptStore) : Option VersionRecord :=
  s.active.bind fun i => s.files.get? i

/-- `PromptManager.current_version`: `0` when `current.yaml` does not
resolve (a missing or dangling symlink), else the record's `version`. -/
def current_version (s : PromptStore) : Nat :=
  match activeRecord s with
  | none => 0
  | some r => r.version

/-- `PromptManager.get_current`: raises `FileNotFoundError` when
`current.yaml` does not resolve. -/
def get_current (s : PromptStore) : Except String String :=
  match activeRecord s with
  | none => .error "FileNotFoundError: no prompt found"
  | some r => .ok r.system_prompt

/-- `PromptManager.create_version`: computes `current_version + 1`, writes
the record, then repoints `current.yaml` at it. -/
def create_version (s : PromptStore) (new_prompt : String)
    (changes : List ChangeDict) (improvement_info : ImprovementInfo)
    (author : String) (now : String) : Nat × PromptStore :=
  let cv := current_version s
  let new_version := cv + 1
  let version_data : VersionRecord :=
    { version := new_version
      created_at := now
      parent_version := if 0 < cv then some cv else none
      improvement := improvement_info
      changes := changes
      system_prompt := new_prompt
      metrics := { sessions_count := 0
                   positive_feedback_rate := none
                   negative_feedback_rate := none }
      author := author
      approved := author == "human" }
  (new_version, { files := s.files ++ [version_data], active := some s.files.length })

/-- `PromptManager.rollback`: repoint `current.yaml` at the first stored
file whose `version` matches, or return `False`; the `reason` is only
printed. -/
def rollback (s : PromptStore) (target_version : Nat) (reason : String) :
    Bool × PromptStore :=
  match s.files.findIdx? (fun r => r.version == target_version) with
  | none => (false, s)
  | some i => (true, { s with active := some i })

/-- Arguments of one `create_version` call, for stating properties of
call sequences. -/
structure CreateArgs where
  new_prompt : String
  changes : List ChangeDict
  improvement_info : ImprovementInfo
  author : String
  now : String

/-- Run a sequence of `create_version` calls, collecting the assigned
version numbers. -/
def runCreates (s : PromptStore) : List CreateArgs → List Nat × PromptStore
  | [] => ([], s)
  | a :: rest =>
    let r := create_version s a.new_prompt a.changes a.improvement_info a.author a.now
    let t := runCreates r.2 rest
    (r.1 :: t.1, t.2)

/-! ## Analyzer (`AnalyzerAgent`, `src/agent/agents/analyzer.py`)

The agentic loop is driven by a *script*: the list of responses the
reasoning backend returns.  The seed message (`_summarize_logs`, the
feedback JSON, the raw logs) and the analyzer's own system prompt only
form text sent to that backend, which the script replaces.  The
non-terminal tools (`search_logs`, `get_conversation`,
`get_prompt_history`) delegate to the external log sink and prompt
history and their results only feed the next scripted response; inside
the loop, only the `submit_analysis` payload is consumed. -/

/-- The `Problem` dataclass. -/
structure Problem where
  id : String
  description : String
  severity : String
  examples : List String
  deriving Repr, DecidableEq

/-- The `Hypothesis` dataclass. -/
structure Hypothesis where
  id : String
  problem_ids : List String
  suggestion : String
  expected_effect : String
  confidence : ℚ
  deriving Repr, DecidableEq

/-- The `AnalysisResult` dataclass (`evidence` is `[]` in both of the
source's constructors). -/
structure AnalysisResult where
  problems : List Problem
  hypotheses : List Hypothesis
  evidence : List String
  confidence_score : ℚ
  raw_analysis : String
  deriving Repr, DecidableEq

/-- One element of the `problems` array of a `submit_analysis` payload;
`.get`-accessed keys are `Option` fields. -/
structure ProblemInput where
  id : Option String := none
  description : Option String := none
  severity : Option String := none
  examples : Option (List String) := none
  deriving Repr, DecidableEq

/-- One element of the `hypotheses` array of a `submit_analysis` payload. -/
structure HypothesisInput where
  id : Option String := none
  problem_ids : Option (List String) := none
  suggestion : Option String := none
  expected_effect : Option String := none
  confidence : Option ℚ := none
  deriving Repr, DecidableEq

/-- The `submit_analysis` tool payload. -/
structure AnalysisInput where
  problems : Option (List ProblemInput) := none
  hypotheses : Option (List HypothesisInput) := none
  overall_confidence : Option ℚ := none
  deriving Repr, DecidableEq

/-- `AnalyzerAgent._parse_analysis`. -/
def parse_analysis (input_data : AnalysisInput) (raw_analysis : String) :
    AnalysisResult :=
  let problems := (input_data.problems.getD []).enum.map fun pe =>
    { id := pe.2.id.getD ("P" ++ toString pe.1)
      description := pe.2.description.getD ""
      severity := pe.2.severity.getD "important"
      examples := pe.2.examples.getD [] : Problem }
  let hypotheses := (input_data.hypotheses.getD []).enum.map fun he =>
    { id := he.2.id.getD ("H" ++ toString he.1)
      problem_ids := he.2.problem_ids.getD []
      suggestion := he.2.suggestion.getD ""
      expected_effect := he.2.expected_effect.getD ""
      confidence := he.2.confidence.getD (1/2) : Hypothesis }
  { problems := problems
    hypotheses := hypotheses
    evidence := []
    confidence_score := input_data.overall_confidence.getD (1/2)
    raw_analysis := raw_analysis }

/-- `AnalyzerAgent._create_fallback_result`. -/
def create_fallback_result (feedback : Feedback) (raw_analysis : String) :
    AnalysisResult :=
  { problems := [{ id := "P1"
                   description := "User feedback: " ++ feedback.raw_text
                   severity := "important"
                   examples := [feedback.raw_text] }]
    hypotheses := [{ id := "H1"
                     problem_ids := ["P1"]
                     suggestion := "Address feedback about " ++ feedback.category
                     expected_effect := "Improved user satisfaction"
                     confidence := 6/10 }]
    evidence := []
    confidence_score := 1/2
    raw_analysis := raw_analysis }

/-- One content block of an analyzer backend response.  Only the
`submit_analysis` tool's payload is consumed inside the loop, so the
payload slot carries that shape. -/
inductive ABlock where
  | text (s : String)
  | tool_use (id name : String) (input : AnalysisInput)
  deriving Repr, DecidableEq

/-- One backend response to the analyzer. -/
structure AResponse where
  stop_reason : String
  content : List ABlock
  deriving Repr, DecidableEq

/-- The text accumulated from a response's blocks
(`if hasattr(block, "text"): raw_analysis += block.text`). -/
def aTexts (content : List ABlock) : String :=
  content.foldl (fun acc b =>
    match b with
    | .text s => acc ++ s
    | .tool_use _ _ _ => acc) ""

/-- The first `submit_analysis` block of a response, if any. -/
def findSubmit (content : List ABlock) : Option AnalysisInput :=
  content.findSome? fun b =>
    match b with
    | .tool_use _ n input => if n == "submit_analysis" then some input else none
    | .text _ => none

/-- Outcome of the analyzer's scripted loop.  `script_exhausted` marks a
run whose script ended while the source loop would call the backend
again. -/
inductive AnalyzeOutcome where
  | ok (result : AnalysisResult)
  | script_exhausted
  deriving Repr, DecidableEq

/-- The `while True` loop of `AnalyzerAgent.analyze`. -/
def analyzeLoop (feedback : Feedback) (raw_analysis : String) :
    List AResponse → AnalyzeOutcome
  | [] => .script_exhausted
  | resp :: rest =>
    let raw := raw_analysis ++ aTexts resp.content
    if resp.stop_reason == "tool_use" then
      match findSubmit resp.content with
      | some input => .ok (parse_analysis input raw)
      | none => analyzeLoop feedback raw rest
    else
      .ok (create_fallback_result feedback raw)

/-- `AnalyzerAgent.analyze` on a scripted backend. -/
def analyze (feedback : Feedback) (script : List AResponse) : AnalyzeOutcome :=
  analyzeLoop feedback "" script

/-! ## Versioner (`VersionerAgent`, `src/agent/agents/versioner.py`)

Scripted like the analyzer.  The versioner's own system prompt (read
from the `versioner` directory) only seeds the backend message; the
modelled `PromptStore` is the directory of the agent being improved,
which the tools read and `_save_version` mutates. -/

/-- The `PromptChange` dataclass. -/
structure PromptChange where
  «section» : String
  change_type : String
  description : String
  hypothesis_id : String
  deriving Repr, DecidableEq

/-- The `PromptVersion` dataclass. -/
structure PromptVersion where
  version : Nat
  content : String
  changes : List PromptChange
  hypothesis_ids : List String
  rationale : String
  deriving Repr, DecidableEq

/-- One element of the `changes` array of a `create_prompt_version`
payload. -/
structure ChangeInput where
  «section» : Option String := none
  change_type : Option String := none
  description : Option String := none
  hypothesis_id : Option String := none
  deriving Repr, DecidableEq

/-- A versioner tool payload: the union of the keys the four tool
handlers read, `Option` for each. -/
structure VToolInput where
  agent_name : Option String := none
  version_a : Option Nat := none
  version_b : Option Nat := none
  prompt_content : Option String := none
  new_prompt : Option String := none
  changes : Option (List ChangeInput) := none
  rationale : Option String := none
  deriving Repr, DecidableEq

/-- One content block of a versioner backend response. -/
inductive VBlock where
  | text (s : String)
  | tool_use (id name : String) (input : VToolInput)
  deriving Repr, DecidableEq

/-- One backend response to the versioner. -/
structure VResponse where
  stop_reason : String
  content : List VBlock
  deriving Repr, DecidableEq

/-- The result dict of one versioner tool call.  The `diff` text itself
comes from Python's `difflib` (external); only the existence checks of
`get_prompt_diff` are modelled, since the dict is only echoed to the
backend. -/
inductive VToolResult where
  | current_prompt (prompt : String) (version : Nat) (length : Nat)
  | diff (version_a version_b : Nat)
  | validation (v : ValidationResult)
  | validation_failed (issues : List String)
  | version_created
  | unknown_tool (name : String)
  deriving Repr, DecidableEq

/-- `VersionerAgent._execute_tool`.  `Except.error` is an uncaught Python
exception (a `KeyError` on a missing required key, or a
`FileNotFoundError` from the store). -/
def execute_tool (s : PromptStore) (target_agent : String) (name : String)
    (input_data : VToolInput) : Except String VToolResult :=
  if name == "get_current_prompt" then
    match get_current s with
    | .error e => .error e
    | .ok prompt => .ok (.current_prompt prompt (current_version s) prompt.length)
  else if name == "get_prompt_diff" then
    match input_data.agent_name, input_data.version_a, input_data.version_b with
    | some _, some va, some vb =>
      if (s.files.findIdx? (fun r => r.version == va)).isSome
          && (s.files.findIdx? (fun r => r.version == vb)).isSome then
        .ok (.diff va vb)
      else
        .error "FileNotFoundError: version not found"
    | _, _, _ => .error "KeyError"
  else if name == "validate_prompt" then
    match input_data.prompt_content with
    | none => .error "KeyError: prompt_content"
    | some prompt => .ok (.validation (validate_prompt prompt))
  else if name == "create_prompt_version" then
    match input_data.new_prompt with
    | none => .error "KeyError: new_prompt"
    | some np =>
      let validation := validate_prompt np
      if !validation.valid then .ok (.validation_failed validation.issues)
      else .ok .version_created
  else
    .ok (.unknown_tool name)

/-- `VersionerAgent._execute_tools`: run each `tool_use` block in request
order; an exception in one tool aborts the batch. -/
def execute_tools (s : PromptStore) (target_agent : String) :
    List VBlock → Except String (List VToolResult)
  | [] => .ok []
  | .text _ :: rest => execute_tools s target_agent rest
  | .tool_use _ name input :: rest =>
    match execute_tool s target_agent name input with
    | .error e => .error e
    | .ok r =>
      match execute_tools s target_agent rest with
      | .error e => .error e
      | .ok rs => .ok (r :: rs)

/-- The `changes` parsing of `VersionerAgent._save_version`. -/
def parse_changes (changes_data : List ChangeInput) : List PromptChange :=
  changes_data.map fun c =>
    { «section» := c.«section».getD ""
      change_type := c.change_type.getD "modify"
      description := c.description.getD ""
      hypothesis_id := c.hypothesis_id.getD "" }

/-- The re-serialization of a `PromptChange` into the dict stored by
`create_version`. -/
def toChangeDict (c : PromptChange) : ChangeDict :=
  { «section» := c.«section»
    change_type := c.change_type
    description := c.description
    hypothesis_id := c.hypothesis_id }

/-- `VersionerAgent._save_version`: parse the payload, build the
improvement info, persist through `create_version` (author
`"versioner_agent"`), and return the `PromptVersion`.  The payload's
`agent_name` picks the directory written to; the claims exercise it with
the target agent's own directory, the modelled store. -/
def save_version (s : PromptStore) (input_data : VToolInput)
    (analysis_result : AnalysisResult) (now : String) :
    Except String (PromptVersion × PromptStore) :=
  match input_data.agent_name, input_data.new_prompt with
  | some _agent_name, some new_prompt =>
    let changes := parse_changes (input_data.changes.getD [])
    let rationale := input_data.rationale.getD ""
    let improvement_info : ImprovementInfo :=
      { trigger := "feedback"
        feedback_summary :=
          match analysis_result.problems with
          | p :: _ => p.description
          | [] => ""
        hypothesis_ids := analysis_result.hypotheses.map (·.id)
        analyzer_confidence := analysis_result.confidence_score }
    let r := create_version s new_prompt (changes.map toChangeDict)
      improvement_info "versioner_agent" now
    .ok ({ version := r.1
           content := new_prompt
           changes := changes
           hypothesis_ids := analysis_result.hypotheses.map (·.id)
           rationale := rationale }, r.2)
  | _, _ => .error "KeyError"

/-- The first `create_prompt_version` block of a response, if any
(the source `break`s at the first one). -/
def findCreate (content : List VBlock) : Option VToolInput :=
  content.findSome? fun b =>
    match b with
    | .tool_use _ n input =>
      if n == "create_prompt_version" then some input else none
    | .text _ => none

/-- Outcome of the versioner's scripted loop.  `raised` is an uncaught
Python exception escaping `improve`; `script_exhausted` marks a run whose
script ended while the source loop would call the backend again. -/
inductive ImproveOutcome where
  | ok (pv : PromptVersion) (s : PromptStore)
  | versioning_error (msg : String)
  | raised (msg : String)
  | script_exhausted (s : PromptStore)
  deriving Repr, DecidableEq

/-- The message of the `VersioningError` raised on a no-tool response. -/
def noVersionMsg : String :=
  "Versioner did not create a new version. " ++
  "The agent should use the create_prompt_version tool."

/-- The `while True` loop of `VersionerAgent.improve`: execute the
requested tools, then scan the response for `create_prompt_version` and,
when present, persist via `_save_version` — regardless of the validation
outcome the `create_prompt_version` handler just computed. -/
def improveLoop (s : PromptStore) (agent_name : String)
    (analysis_result : AnalysisResult) (now : String) :
    List VResponse → ImproveOutcome
  | [] => .script_exhausted s
  | resp :: rest =>
    if resp.stop_reason == "tool_use" then
      match execute_tools s agent_name resp.content with
      | .error e => .raised e
      | .ok _tool_results =>
        match findCreate resp.content with
        | some input =>
          match save_version s input analysis_result now with
          | .error e => .raised e
          | .ok r => .ok r.1 r.2
        | none => improveLoop s agent_name analysis_result now rest
    else
      .versioning_error noVersionMsg

/-- `VersionerAgent.improve` on a scripted backend: the preamble reads
the target agent's current prompt and version (raising when the
directory has no active prompt), then enters the loop. -/
def improve (s : PromptStore) (agent_name : String)
    (analysis_result : AnalysisResult) (now : String)
    (script : List VResponse) : ImproveOutcome :=
  match get_current s with
  | .error e => .raised e
  | .ok _current_prompt => improveLoop s agent_name analysis_result now script

/-! ## Orchestrator (`ImprovementOrchestrator`, `src/agent/core/orchestrator.py`)

`run` awaits `analyzer.analyze` and `versioner.improve`, whose loops are
embedded above; here their outcomes enter as `Except` values
(`Except.error` carrying `str(exception)`).  Event emissions to the
external log sink are modelled as pure accumulation, per the log-sink
contract.  The `except VersioningError` handler at line 150 names the
class *defined in orchestrator.py*, which is distinct from the
`VersioningError` class the versioner raises and which nothing raises, so
that handler never fires: every exception from steps 2 and 4 reaches the
outer `except Exception`.  Wall-clock durations are modelled as `0`, and
the `"{:.2f}"` rendering of the confidence is modelled by `toString`. -/

/-- An event logged via `log_improvement_event`, with the payload fields
the claims mention (`logs_count` is `len(recent_logs)`; the log entries
themselves only seed the analyzer). -/
inductive OEvent where
  | improvement_started (feedback_type target_agent : String) (logs_count : Nat)
  | analysis_started (target_agent : String)
  | analysis_completed (confidence : ℚ)
  | improvement_skipped (confidence threshold : ℚ)
  | versioning_started (target_agent : String)
  | version_created (old_version new_version : Nat)
  | improvement_completed (old_version new_version : Nat)
  | improvement_failed (error : String)
  deriving Repr, DecidableEq

/-- The `ImprovementResult` dataclass. -/
structure ImprovementResult where
  success : Bool
  old_version : Nat
  new_version : Option Nat
  analysis_summary : String
  changes_summary : List String
  duration_ms : Nat
  error : Option String := none
  deriving Repr, DecidableEq

/-- What one `run` invocation produces: its return value, the ordered
event trail, and whether `versioner.improve` was invoked. -/
structure RunOutput where
  result : ImprovementResult
  events : List OEvent
  versioner_invoked : Bool
  deriving Repr, DecidableEq

/-- The `ImprovementResult` built in the outer `except Exception` handler. -/
def failureResult (old_version : Nat) (e : String) : ImprovementResult :=
  { success := false
    old_version := old_version
    new_version := none
    analysis_summary := ""
    changes_summary := []
    duration_ms := 0
    error := some e }

/-- `ImprovementOrchestrator.run`.  `analyzeOutcome` is what awaiting
`analyzer.analyze` yields; `improveOutcome` is what awaiting
`versioner.improve` would yield, consulted only when the confidence gate
passes. -/
def run (threshold : ℚ) (s : PromptStore) (feedback : Feedback)
    (recent_logs_count : Nat) (target_agent : String)
    (analyzeOutcome : Except String AnalysisResult)
    (improveOutcome : Except String PromptVersion) : RunOutput :=
  let old_version := current_version s
  let events := [OEvent.improvement_started feedback.type target_agent
                   recent_logs_count,
                 OEvent.analysis_started target_agent]
  match get_current s with
  | .error e =>
    { result := failureResult old_version e
      events := events ++ [.improvement_failed e]
      versioner_invoked := false }
  | .ok _current_prompt =>
    match analyzeOutcome with
    | .error e =>
      { result := failureResult old_version e
        events := events ++ [.improvement_failed e]
        versioner_invoked := false }
    | .ok analysis_result =>
      let events := events ++ [.analysis_completed analysis_result.confidence_score]
      if analysis_result.confidence_score < threshold then
        { result :=
            { success := false
              old_version := old_version
              new_version := none
              analysis_summary :=
                "Analysis confidence too low: " ++
                toString analysis_result.confidence_score
              changes_summary := []
              duration_ms := 0
              error := some "Low confidence - improvement skipped" }
          events := events ++
            [.improvement_skipped analysis_result.confidence_score threshold]
          versioner_invoked := false }
      else
        let events := events ++ [.versioning_started target_agent]
        match improveOutcome with
        | .error e =>
          { result := failureResult old_version e
            events := events ++ [.improvement_failed e]
            versioner_invoked := true }
        | .ok new_version =>
          { result :=
              { success := true
                old_version := old_version
                new_version := some new_version.version
                analysis_summary := analysis_result.raw_analysis.take 500
                changes_summary := new_version.changes.map (·.description)
                duration_ms := 0
                error := none }
            events := events ++
              [.version_created old_version new_version.version,
               .improvement_completed old_version new_version.version]
            versioner_invoked := true }

/-! ## Observation helpers (for stating properties of loop outcomes) -/

/-- The version number of the `PromptVersion` an `improve` run returned,
if it returned one. -/
def ImproveOutcome.versionCreated : ImproveOutcome → Option Nat
  | .ok pv _ => some pv.version
  | _ => none

/-- The state of the target agent's prompt directory after an `improve`
run, when the run ended without an uncaught exception. -/
def ImproveOutcome.finalStore : ImproveOutcome → Option PromptStore
  | .ok _ s => some s
  | .script_exhausted s => some s
  | _ => none

/-! ## Concrete fixtures used by witnesses and concrete instances -/

/-- An empty metrics block. -/
def mets0 : Metrics :=
  { sessions_count := 0, positive_feedback_rate := none,
    negative_feedback_rate := none }

/-- A minimal improvement-info value. -/
def info0 : ImprovementInfo :=
  { trigger := "manual", feedback_summary := "", hypothesis_ids := [],
    analyzer_confidence := 0 }

/-- A version-1 record authored by a human. -/
def rec0 : VersionRecord :=
  { version := 1, created_at := "t0", parent_version := none,
    improvement := info0, changes := [],
    system_prompt := "You are the main agent.", metrics := mets0,
    author := "human", approved := true }

/-- A one-version store with that record active. -/
def store1 : PromptStore := { files := [rec0], active := some 0 }

/-- A concrete negative feedback value. -/
def fb0 : Feedback :=
  { type := "negative", category := "verbosity", raw_text := "too long",
    confidence := 1, triggered_improvement := true }

/-! ## Helper lemmas -/

theorem maxScore_nil : maxScore [] = 0 := rfl

theorem maxScore_cons (p : String × Nat) (l : List (String × Nat)) :
    maxScore (p :: l) = max p.2 (maxScore l) := rfl

theorem le_maxScore_of_mem {p : String × Nat} {l : List (String × Nat)}
    (h : p ∈ l) : p.2 ≤ maxScore l := by
  induction l with
  | nil => cases h
  | cons q l ih =>
    rw [maxScore_cons]
    rcases List.mem_cons.mp h with rfl | h'
    · exact Nat.le_max_left _ _
    · exact le_trans (ih h') (Nat.le_max_right _ _)

theorem filter_pos_eq_nil {l : List (String × Nat)} (h : maxScore l = 0) :
    l.filter (fun p => 0 < p.2) = [] := by
  rcases hfe : l.filter (fun p => 0 < p.2) with _ | ⟨q, rest⟩
  · exact hfe
  · exfalso
    have hq : q ∈ l.filter (fun p => 0 < p.2) := hfe ▸ List.mem_cons_self q rest
    have hql : q ∈ l := List.mem_of_mem_filter hq
    have hqpos : 0 < q.2 := by simpa using List.of_mem_filter hq
    have := le_maxScore_of_mem hql
    omega

theorem maxScore_filter_pos (l : List (String × Nat)) :
    maxScore (l.filter fun p => 0 < p.2) = maxScore l := by
  induction l with
  | nil => rfl
  | cons q l ih =>
    by_cases hq : 0 < q.2
    · rw [List.filter_cons_of_pos (by simpa using hq), maxScore_cons,
        maxScore_cons, ih]
    · rw [List.filter_cons_of_neg (by simpa using hq), maxScore_cons, ih]
      have hq0 : q.2 = 0 := by omega
      simp [hq0]

theorem find?_filter_pos {m : Nat} (hm : 0 < m) (l : List (String × Nat)) :
    (l.filter fun p => 0 < p.2).find? (fun p => p.2 == m) =
      l.find? (fun p => p.2 == m) := by
  induction l with
  | nil => rfl
  | cons q l ih =>
    by_cases hq : 0 < q.2
    · rw [List.filter_cons_of_pos (by simpa using hq)]
      rcases hqm : (q.2 == m) with _ | _ <;> simp [List.find?, hqm, ih]
    · rw [List.filter_cons_of_neg (by simpa using hq)]
      have hq0 : q.2 = 0 := by omega
      have hne : (q.2 == m) = false := by simp [hq0]; omega
      simp [List.find?, hne, ih]

theorem maxGo_spec (l : List (String × Nat)) : ∀ best : String × Nat,
    (maxScore l ≤ best.2 → maxGo best l = best) ∧
    (best.2 < maxScore l →
      ∃ p, l.find? (fun q => q.2 == maxScore l) = some p ∧ maxGo best l = p) := by
  induction l with
  | nil =>
    intro best
    refine ⟨fun _ => rfl, fun h => ?_⟩
    rw [maxScore_nil] at h
    omega
  | cons q l ih =>
    intro best
    constructor
    · intro hle
      rw [maxScore_cons] at hle
      have hq : q.2 ≤ best.2 := le_trans (Nat.le_max_left _ _) hle
      have hml : maxScore l ≤ best.2 := le_trans (Nat.le_max_right _ _) hle
      show maxGo (if best.2 < q.2 then q else best) l = best
      rw [if_neg (by omega)]
      exact (ih best).1 hml
    · intro hlt
      rw [maxScore_cons] at hlt
      show ∃ p, List.find? _ (q :: l) = some p ∧
        maxGo (if best.2 < q.2 then q else best) l = p
      by_cases hbq : best.2 < q.2
      · rw [if_pos hbq]
        by_cases hcase : maxScore l ≤ q.2
        · have hm : max q.2 (maxScore l) = q.2 := Nat.max_eq_left hcase
          refine ⟨q, ?_, (ih q).1 hcase⟩
          rw [maxScore_cons, hm]
          simp [List.find?]
        · push_neg at hcase
          have hm : max q.2 (maxScore l) = maxScore l :=
            Nat.max_eq_right (le_of_lt hcase)
          obtain ⟨p, hfind, hgo⟩ := (ih q).2 hcase
          refine ⟨p, ?_, hgo⟩
          rw [maxScore_cons, hm]
          have hne : (q.2 == maxScore l) = false := by simp; omega
          simp [List.find?, hne, hfind]
      · rw [if_neg hbq]
        push_neg at hbq
        have hcase : best.2 < maxScore l := by
          rcases lt_max_iff.mp hlt with h | h
          · omega
          · exact h
        have hm : max q.2 (maxScore l) = maxScore l :=
          Nat.max_eq_right (by omega)
        obtain ⟨p, hfind, hgo⟩ := (ih best).2 hcase
        refine ⟨p, ?_, hgo⟩
        rw [maxScore_cons, hm]
        have hne : (q.2 == maxScore l) = false := by simp; omega
        simp [List.find?, hne, hfind]

theorem detectCatOf_eq_specCatOf (l : List (String × Nat)) :
    detectCatOf l = specCatOf l := by
  by_cases hm : maxScore l = 0
  · unfold detectCatOf specCatOf
    rw [filter_pos_eq_nil hm]
    simp [hm]
  · have hm' : 0 < maxScore l := Nat.pos_of_ne_zero hm
    unfold detectCatOf specCatOf
    have hfilter := maxScore_filter_pos l
    rcases hfe : l.filter (fun p => 0 < p.2) with _ | ⟨p, rest⟩
    · rw [hfe, maxScore_nil] at hfilter
      omega
    · have hcons : max p.2 (maxScore rest) = maxScore l := by
        rw [← maxScore_cons, ← hfe]
        exact hfilter
      rcases le_or_lt (maxScore rest) p.2 with hle | hlt
      · have hgo : maxGo p rest = p := (maxGo_spec rest p).1 hle
        have hp2 : p.2 = maxScore l := by
          rw [← hcons, Nat.max_eq_left hle]
        have hfl : l.find? (fun q => q.2 == maxScore l) = some p := by
          rw [← find?_filter_pos hm', hfe]
          simp [List.find?, hp2]
        simp [hfe, hm, hfl, hgo]
      · have hrest : maxScore rest = maxScore l := by
          rw [Nat.max_eq_right (le_of_lt hlt)] at hcons
          exact hcons
        obtain ⟨q, hfind, hgo⟩ := (maxGo_spec rest p).2 hlt
        rw [hrest] at hfind
        have hfl : l.find? (fun r => r.2 == maxScore l) = some q := by
          rw [← find?_filter_pos hm', hfe]
          have hne : (p.2 == maxScore l) = false := by simp; omega
          simp [List.find?, hne, hfind]
        simp [hfe, hm, hfl, hgo]

/-! ## Claim theorems -/

/-- C7: for every configuration and every `Feedback` value,
`should_trigger_improvement` is a pure function of the feedback and
returns `true` iff (`type == "negative"` and `confidence` is at least the
configured feedback-confidence threshold) or `category == "explicit"`. -/
theorem should_trigger_improvement_iff (cfg : Thresholds) (f : Feedback) :
    f.should_trigger_improvement cfg = true ↔
      ((f.type = "negative" ∧ cfg.feedback_confidence ≤ f.confidence) ∨
        f.category = "explicit") := by
  unfold Feedback.should_trigger_improvement
  split
  · simp_all
  · split <;> simp_all

/-- C8: `validate_prompt` applies, in source order, the length check
(≤ 16000), the emptiness check, the template-marker check and — for
prompts over 500 characters — the structural-marker check, each failing
check contributing its one issue string; `valid` is true iff the issue
list is empty; a 20,001-character prompt yields `valid = false` with the
length issue, and the empty prompt yields `valid = false` with the
emptiness issue. -/
theorem validate_prompt_spec :
    (∀ p : String,
      ((validate_prompt p).valid = true ↔ (validate_prompt p).issues = [])
      ∧ (validate_prompt p).issues =
          (if MAX_PROMPT_LENGTH < p.length then [lengthIssue p.length] else [])
          ++ (if pyStrip p = "" then [emptyIssue] else [])
          ++ (if strContains p "\x7b\x7b" || strContains p "\x7d\x7d" then
                [templateIssue] else [])
          ++ (if 500 < p.length
                && !(strContains p "##" || strContains p "**") then
                [structureIssue] else []))
    ∧ (validate_prompt (String.mk (List.replicate 20001 'a'))).valid = false
    ∧ lengthIssue 20001 ∈
        (validate_prompt (String.mk (List.replicate 20001 'a'))).issues
    ∧ (validate_prompt "").valid = false
    ∧ emptyIssue ∈ (validate_prompt "").issues := by
  have hdec : ∀ p : String, validate_issues p =
      (if MAX_PROMPT_LENGTH < p.length then [lengthIssue p.length] else [])
      ++ (if pyStrip p = "" then [emptyIssue] else [])
      ++ (if strContains p "\x7b\x7b" || strContains p "\x7d\x7d" then
            [templateIssue] else [])
      ++ (if 500 < p.length && !(strContains p "##" || strContains p "**") then
            [structureIssue] else []) := by
    intro p
    unfold validate_issues
    split <;> split <;> split <;> split <;> simp_all
  have hissues : ∀ p : String,
      (validate_prompt p).issues = validate_issues p := fun _ => rfl
  have hvalid : ∀ p : String,
      (validate_prompt p).valid = true ↔ (validate_prompt p).issues = [] := by
    intro p
    rw [show (validate_prompt p).valid = (validate_issues p).isEmpty from rfl,
      hissues]
    cases validate_issues p <;> simp
  have hlen : (String.mk (List.replicate 20001 'a')).length = 20001 := by
    show (List.replicate 20001 'a').length = 20001
    exact List.length_replicate 20001 'a'
  have hmem : lengthIssue 20001 ∈
      (validate_prompt (String.mk (List.replicate 20001 'a'))).issues := by
    rw [hissues, hdec, hlen, if_pos (by decide)]
    exact List.mem_append_left _ (List.mem_append_left _
      (List.mem_append_left _ (List.mem_singleton_self _)))
  refine ⟨fun p => ⟨hvalid p, hdec p⟩, ?_, hmem, ?_, ?_⟩
  · cases hvb : (validate_prompt (String.mk (List.replicate 20001 'a'))).valid
    · rfl
    · exfalso
      have hempty := (hvalid _).mp hvb
      rw [hempty] at hmem
      cases hmem
  · decide
  · decide

/-- C9: for every message whose pattern-set outcomes are «some negative
pattern matched, no positive pattern matched», `detect` returns a
`Feedback` with `type = "negative"` and `confidence = 0.85`, whose
category is the keyword-overlap choice over the fixed category table —
the first category (in declaration order) reaching the maximum score,
`"general"` when no keyword occurs — as captured by the spec-modelled
`specCategory`. -/
theorem detect_negative_characterization (message : String) :
    detect true false message =
      some { type := "negative"
             category := specCategory (pyLower message)
             raw_text := message
             confidence := 85/100
             triggered_improvement := true } := by
  unfold detect specCategory detect_category
  simp [detectCatOf_eq_specCatOf]

theorem findIdx?_get {α : Type _} (p : α → Bool) :
    ∀ (l : List α) (s j : Nat), List.findIdx? p l s = some j →
      s ≤ j ∧ ∃ r, l.get? (j - s) = some r ∧ p r = true := by
  intro l
  induction l with
  | nil => intro s j h; simp [List.findIdx?] at h
  | cons a l ih =>
    intro s j h
    rw [List.findIdx?_cons] at h
    split at h
    · rename_i hpa
      cases h
      exact ⟨le_refl s, a, by simp, hpa⟩
    · obtain ⟨hsj, r, hr, hpr⟩ := ih (s + 1) j h
      refine ⟨by omega, r, ?_, hpr⟩
      have hjs : j - s = (j - (s + 1)) + 1 := by omega
      rw [hjs]
      simpa using hr

theorem create_version_step (s : PromptStore) (np : String)
    (ch : List ChangeDict) (info : ImprovementInfo) (author now : String) :
    activeRecord (create_version s np ch info author now).2 =
      some { version := current_version s + 1
             created_at := now
             parent_version :=
               if 0 < current_version s then some (current_version s) else none
             improvement := info
             changes := ch
             system_prompt := np
             metrics := { sessions_count := 0
                          positive_feedback_rate := none
                          negative_feedback_rate := none }
             author := author
             approved := author == "human" }
    ∧ (create_version s np ch info author now).1 = current_version s + 1
    ∧ (create_version s np ch info author now).2.files.length =
        s.files.length + 1 := by
  refine ⟨?_, rfl, by simp [create_version]⟩
  simp only [create_version, activeRecord, Option.bind]
  exact List.get?_concat_length _ _

theorem runCreates_cons (s : PromptStore) (a : CreateArgs)
    (args : List CreateArgs) :
    runCreates s (a :: args) =
      ((create_version s a.new_prompt a.changes a.improvement_info
          a.author a.now).1 ::
        (runCreates (create_version s a.new_prompt a.changes
          a.improvement_info a.author a.now).2 args).1,
       (runCreates (create_version s a.new_prompt a.changes
          a.improvement_info a.author a.now).2 args).2) := rfl

theorem runCreates_spec (args : List CreateArgs) :
    ∀ s : PromptStore, current_version s = s.files.length →
      (runCreates s args).1 = List.range' (s.files.length + 1) args.length
      ∧ current_version (runCreates s args).2 =
          (runCreates s args).2.files.length := by
  induction args with
  | nil => intro s hs; exact ⟨rfl, hs⟩
  | cons a args ih =>
    intro s hs
    obtain ⟨hact, hnum, hlen⟩ :=
      create_version_step s a.new_prompt a.changes a.improvement_info
        a.author a.now
    have hver : current_version (create_version s a.new_prompt a.changes
        a.improvement_info a.author a.now).2 = current_version s + 1 := by
      unfold current_version
      rw [hact]
      rfl
    have hcv : current_version (create_version s a.new_prompt a.changes
        a.improvement_info a.author a.now).2 =
        (create_version s a.new_prompt a.changes a.improvement_info
          a.author a.now).2.files.length := by
      rw [hver, hlen, hs]
    obtain ⟨h1, h2⟩ := ih _ hcv
    rw [runCreates_cons]
    constructor
    · show (create_version s a.new_prompt a.changes a.improvement_info
          a.author a.now).1 ::
        (runCreates (create_version s a.new_prompt a.changes
          a.improvement_info a.author a.now).2 args).1 =
        List.range' (s.files.length + 1) (a :: args).length
      rw [List.length_cons, List.range'_succ, hnum, hs, h1, hlen]
    · exact h2

/-- C2 counterexample: from an empty store, `create_version`,
`create_version`, `rollback` to version 1, `create_version` assigns the
numbers 1, 2, 2 — the third forward creation reuses the already-assigned
number 2, because `create_version` computes «active version + 1». -/
theorem version_reuse_after_rollback :
    let info : ImprovementInfo :=
      { trigger := "manual", feedback_summary := "", hypothesis_ids := [],
        analyzer_confidence := 0 }
    let s0 : PromptStore := { files := [], active := none }
    let r1 := create_version s0 "p1" [] info "human" "t1"
    let r2 := create_version r1.2 "p2" [] info "human" "t2"
    let rb := rollback r2.2 1 "reverting"
    let r3 := create_version rb.2 "p3" [] info "human" "t3"
    r1.1 = 1 ∧ r2.1 = 2 ∧ rb.1 = true ∧ r3.1 = 2 ∧ ¬ r2.1 < r3.1 := by
  decide

/-- C2 amended: in any run consisting only of `create_version` calls from
an empty directory the assigned numbers are exactly `1, 2, …, n` (strictly
increasing, none skipped, none reused); after a rollback, however, the
next creation restarts from the rolled-back version, so numbers can be
reused (see the counterexample).  A successful `rollback(agent, v)` only
moves the active pointer: `current_version` afterwards returns `v` and the
stored records are unchanged (hence so is the history length). -/
theorem version_numbering_amended :
    (∀ args : List CreateArgs,
      (runCreates { files := [], active := none } args).1 =
        List.range' 1 args.length)
    ∧ ∀ (s : PromptStore) (v : Nat) (reason : String),
        (rollback s v reason).1 = true →
          current_version (rollback s v reason).2 = v
          ∧ (rollback s v reason).2.files = s.files := by
  constructor
  · intro args
    simpa using (runCreates_spec args { files := [], active := none } rfl).1
  · intro s v reason h
    rcases hfi : s.files.findIdx? (fun r => r.version == v) with _ | i
    · rw [rollback, hfi] at h
      cases h
    · obtain ⟨-, r, hr, hpr⟩ := findIdx?_get _ s.files 0 i hfi
      rw [Nat.sub_zero] at hr
      rw [rollback, hfi]
      refine ⟨?_, rfl⟩
      simp only [current_version, activeRecord, Option.bind, hr]
      exact Nat.beq_eq ▸ (by simpa using hpr)

/-- C2 amended, witness: a store holding versions 1 and 2 with version 2
active; rolling back to version 1 succeeds, makes `current_version`
return 1 and leaves the records unchanged. -/
theorem version_numbering_amended_witness :
    let info : ImprovementInfo :=
      { trigger := "manual", feedback_summary := "", hypothesis_ids := [],
        analyzer_confidence := 0 }
    let mets : Metrics :=
      { sessions_count := 0, positive_feedback_rate := none,
        negative_feedback_rate := none }
    let rec1 : VersionRecord :=
      { version := 1, created_at := "t1", parent_version := none,
        improvement := info, changes := [], system_prompt := "p1",
        metrics := mets, author := "human", approved := true }
    let rec2 : VersionRecord :=
      { version := 2, created_at := "t2", parent_version := some 1,
        improvement := info, changes := [], system_prompt := "p2",
        metrics := mets, author := "human", approved := true }
    let s : PromptStore := { files := [rec1, rec2], active := some 1 }
    (rollback s 1 "reverting").1 = true
    ∧ current_version (rollback s 1 "reverting").2 = 1
    ∧ (rollback s 1 "reverting").2.files = s.files := by
  refine ⟨by decide, ?_⟩
  exact version_numbering_amended.2 _ 1 "reverting" (by decide)

/-- C10: every record written by `create_version` has
`approved = (author == "human")` and immediately becomes the active
record; in particular a version persisted through the Versioner pipeline
(`_save_version`, author `"versioner_agent"`) is written with
`approved = false` and is nevertheless repointed to as the active
prompt. -/
theorem approved_iff_human_and_activated :
    (∀ (s : PromptStore) (prompt : String) (ch : List ChangeDict)
        (info : ImprovementInfo) (author now : String),
      ∃ r, activeRecord (create_version s prompt ch info author now).2 = some r
        ∧ r.approved = (author == "human")
        ∧ r.author = author
        ∧ r.system_prompt = prompt
        ∧ r.version = (create_version s prompt ch info author now).1)
    ∧ ∀ (s : PromptStore) (agent np : String)
        (ch : Option (List ChangeInput)) (rat pc : Option String)
        (va vb : Option Nat) (ar : AnalysisResult) (now : String),
      ∃ pv s2,
        save_version s
            { agent_name := some agent, version_a := va, version_b := vb,
              prompt_content := pc, new_prompt := some np, changes := ch,
              rationale := rat } ar now = .ok (pv, s2)
        ∧ ∃ r, activeRecord s2 = some r
            ∧ r.author = "versioner_agent"
            ∧ r.approved = false
            ∧ r.system_prompt = np
            ∧ r.version = pv.version := by
  have hgen : ∀ (s : PromptStore) (prompt : String) (ch : List ChangeDict)
      (info : ImprovementInfo) (author now : String),
      ∃ r, activeRecord (create_version s prompt ch info author now).2 = some r
        ∧ r.approved = (author == "human")
        ∧ r.author = author
        ∧ r.system_prompt = prompt
        ∧ r.version = (create_version s prompt ch info author now).1 := by
    intro s prompt ch info author now
    obtain ⟨hact, hnum, -⟩ := create_version_step s prompt ch info author now
    exact ⟨_, hact, rfl, rfl, rfl, hnum.symm⟩
  refine ⟨hgen, ?_⟩
  intro s agent np ch rat pc va vb ar now
  refine ⟨_, _, rfl, ?_⟩
  obtain ⟨r, hact, happ, hauth, hsys, hver⟩ := hgen s np
    ((parse_changes (ch.getD [])).map toChangeDict)
    { trigger := "feedback"
      feedback_summary :=
        match ar.problems with
        | p :: _ => p.description
        | [] => ""
      hypothesis_ids := ar.hypotheses.map (·.id)
      analyzer_confidence := ar.confidence_score }
    "versioner_agent" now
  exact ⟨r, hact, hauth, happ, hsys, hver⟩

/-- C1, evaluated at the failing input: the versioner's backend calls
`create_prompt_version` with the empty prompt, which fails validation —
the tool handler duly returns the issue list — yet `improve` still
persists the invalid prompt: the run succeeds, a second record is
written, and the active prompt becomes the empty string. -/
theorem invalid_prompt_persisted :
    let infoR : ImprovementInfo :=
      { trigger := "manual", feedback_summary := "", hypothesis_ids := [],
        analyzer_confidence := 0 }
    let rec1 : VersionRecord :=
      { version := 1, created_at := "t0", parent_version := none,
        improvement := infoR, changes := [],
        system_prompt := "You are the main agent.",
        metrics := { sessions_count := 0, positive_feedback_rate := none,
                     negative_feedback_rate := none },
        author := "human", approved := true }
    let s0 : PromptStore := { files := [rec1], active := some 0 }
    let ar : AnalysisResult :=
      { problems := [], hypotheses := [], evidence := [],
        confidence_score := 7/10, raw_analysis := "ra" }
    let input0 : VToolInput :=
      { agent_name := some "main_agent", new_prompt := some "",
        changes := some [], rationale := some "fix" }
    let script : List VResponse :=
      [{ stop_reason := "tool_use",
         content := [.tool_use "t1" "create_prompt_version" input0] }]
    (validate_prompt "").valid = false
    ∧ execute_tool s0 "main_agent" "create_prompt_version" input0 =
        .ok (.validation_failed [emptyIssue])
    ∧ (improve s0 "main_agent" ar "t1" script).versionCreated = some 2
    ∧ ((improve s0 "main_agent" ar "t1" script).finalStore.map
        fun s => s.files.length) = some 2
    ∧ ((improve s0 "main_agent" ar "t1" script).finalStore.bind
        activeRecord).map VersionRecord.system_prompt = some "" := by
  exact ⟨rfl, rfl, rfl, rfl, rfl⟩

/-- C3: whenever analysis succeeds with a confidence score below the
configured improvement threshold, `run` returns `success = false` with
`new_version = none` and the skip reason, emits the skip event, and never
invokes the Versioner; in particular with confidence 2/5 against
threshold 3/5. -/
theorem low_confidence_gate :
    (∀ (threshold : ℚ) (s : PromptStore) (fb : Feedback) (lc : Nat)
        (target p : String) (ar : AnalysisResult)
        (impOut : Except String PromptVersion),
      get_current s = .ok p →
      ar.confidence_score < threshold →
        (run threshold s fb lc target (.ok ar) impOut).result.success = false
        ∧ (run threshold s fb lc target (.ok ar) impOut).result.new_version
            = none
        ∧ (run threshold s fb lc target (.ok ar) impOut).versioner_invoked
            = false
        ∧ (run threshold s fb lc target (.ok ar) impOut).result.error
            = some "Low confidence - improvement skipped"
        ∧ OEvent.improvement_skipped ar.confidence_score threshold ∈
            (run threshold s fb lc target (.ok ar) impOut).events)
    ∧ ((run (3/5) store1 fb0 0 "main_agent"
          (.ok { problems := [], hypotheses := [], evidence := [],
                 confidence_score := 2/5, raw_analysis := "" })
          (.error "never invoked")).result.success = false
        ∧ (run (3/5) store1 fb0 0 "main_agent"
            (.ok { problems := [], hypotheses := [], evidence := [],
                   confidence_score := 2/5, raw_analysis := "" })
            (.error "never invoked")).result.new_version = none
        ∧ (run (3/5) store1 fb0 0 "main_agent"
            (.ok { problems := [], hypotheses := [], evidence := [],
                   confidence_score := 2/5, raw_analysis := "" })
            (.error "never invoked")).versioner_invoked = false) := by
  have main : ∀ (threshold : ℚ) (s : PromptStore) (fb : Feedback) (lc : Nat)
      (target p : String) (ar : AnalysisResult)
      (impOut : Except String PromptVersion),
      get_current s = .ok p →
      ar.confidence_score < threshold →
        (run threshold s fb lc target (.ok ar) impOut).result.success = false
        ∧ (run threshold s fb lc target (.ok ar) impOut).result.new_version
            = none
        ∧ (run threshold s fb lc target (.ok ar) impOut).versioner_invoked
            = false
        ∧ (run threshold s fb lc target (.ok ar) impOut).result.error
            = some "Low confidence - improvement skipped"
        ∧ OEvent.improvement_skipped ar.confidence_score threshold ∈
            (run threshold s fb lc target (.ok ar) impOut).events := by
    intro threshold s fb lc target p ar impOut hp hconf
    simp only [run, hp]
    rw [if_pos hconf]
    exact ⟨rfl, rfl, rfl, rfl, by simp⟩
  have hex := main (3/5) store1 fb0 0 "main_agent" "You are the main agent."
    { problems := [], hypotheses := [], evidence := [],
      confidence_score := 2/5, raw_analysis := "" }
    (.error "never invoked") rfl (by norm_num)
  exact ⟨main, hex.1, hex.2.1, hex.2.2.1⟩

/-- C3 witness: a concrete low-confidence run (confidence 0 against
threshold 1) on the one-version store. -/
theorem low_confidence_gate_witness :
    get_current store1 = .ok "You are the main agent."
    ∧ (0:ℚ) < 1
    ∧ (run 1 store1 fb0 0 "main_agent"
        (.ok { problems := [], hypotheses := [], evidence := [],
               confidence_score := 0, raw_analysis := "" })
        (.error "never invoked")).result.success = false :=
  ⟨rfl, by decide,
    (low_confidence_gate.1 1 store1 fb0 0 "main_agent"
      "You are the main agent."
      { problems := [], hypotheses := [], evidence := [],
        confidence_score := 0, raw_analysis := "" }
      (.error "never invoked") rfl (by decide)).1⟩

/-- C4: asymmetric no-tool handling — on a script whose first response
requests no tool, `Analyzer.analyze` synthesizes the fallback
`AnalysisResult` (exactly one problem and one hypothesis derived from the
input `Feedback`, `confidence_score = 0.5`), while `Versioner.improve` on
the same no-tool shape raises `VersioningError` instead of synthesizing a
result. -/
theorem no_tool_asymmetry :
    (∀ (feedback : Feedback) (resp : AResponse) (rest : List AResponse),
      resp.stop_reason ≠ "tool_use" →
        analyze feedback (resp :: rest) =
          .ok (create_fallback_result feedback (aTexts resp.content))
        ∧ (create_fallback_result feedback
            (aTexts resp.content)).problems.map Problem.description =
            ["User feedback: " ++ feedback.raw_text]
        ∧ (create_fallback_result feedback
            (aTexts resp.content)).hypotheses.map Hypothesis.suggestion =
            ["Address feedback about " ++ feedback.category]
        ∧ (create_fallback_result feedback
            (aTexts resp.content)).confidence_score = 1/2)
    ∧ ∀ (s : PromptStore) (r : VersionRecord) (agent now : String)
        (ar : AnalysisResult) (resp : VResponse) (rest : List VResponse),
      activeRecord s = some r →
      resp.stop_reason ≠ "tool_use" →
      improve s agent ar now (resp :: rest) =
        .versioning_error noVersionMsg := by
  constructor
  · intro fb resp rest h
    have hb : (resp.stop_reason == "tool_use") = false := by simpa using h
    refine ⟨?_, rfl, rfl, rfl⟩
    unfold analyze analyzeLoop
    rw [hb]
    simp [String.empty_append]
  · intro s r agent now ar resp rest hact h
    have hb : (resp.stop_reason == "tool_use") = false := by simpa using h
    have hcur : get_current s = .ok r.system_prompt := by
      unfold get_current
      rw [hact]
    unfold improve
    rw [hcur]
    unfold improveLoop
    rw [hb]
    simp

/-- C4 witness: a one-response script that never requests a tool. -/
theorem no_tool_asymmetry_witness :
    ("end_turn" : String) ≠ "tool_use"
    ∧ activeRecord store1 = some rec0
    ∧ analyze fb0 [{ stop_reason := "end_turn", content := [.text "notes"] }]
        = .ok (create_fallback_result fb0
            (aTexts [ABlock.text "notes"]))
    ∧ improve store1 "main_agent"
        { problems := [], hypotheses := [], evidence := [],
          confidence_score := 1, raw_analysis := "" } "t1"
        [{ stop_reason := "end_turn", content := [] }] =
        .versioning_error noVersionMsg :=
  ⟨by decide, rfl,
    (no_tool_asymmetry.1 fb0
      { stop_reason := "end_turn", content := [.text "notes"] } []
      (by decide)).1,
    no_tool_asymmetry.2 store1 rec0 "main_agent" "t1"
      { problems := [], hypotheses := [], evidence := [],
        confidence_score := 1, raw_analysis := "" }
      { stop_reason := "end_turn", content := [] } [] rfl (by decide)⟩

/-- C5 counterexample: a `submit_analysis` payload carrying
`overall_confidence = 3/2` (outside `[0,1]`) is propagated unchanged into
the `AnalysisResult` — neither clamped nor rejected — and so is an
out-of-range per-hypothesis confidence. -/
theorem confidence_propagated_unclamped :
    let payload : AnalysisInput :=
      { problems := some []
        hypotheses := some
          [{ id := some "H1", problem_ids := some [],
             suggestion := some "s", expected_effect := some "e",
             confidence := some (3/2) }]
        overall_confidence := some (3/2) }
    (parse_analysis payload "ra").confidence_score = 3/2
    ∧ ¬ ((3:ℚ)/2 ≤ 1)
    ∧ (parse_analysis payload "ra").hypotheses.map Hypothesis.confidence
        = [3/2] := by
  exact ⟨rfl, by norm_num, rfl⟩

/-- C5 amended: the pipeline does not clamp or reject confidences — the
terminal payload's values are propagated verbatim into the
`AnalysisResult` (defaulting to 0.5 only when absent), so they lie in
`[0,1]` exactly when the payload's values do; only the fallback
constructor's built-in confidences (0.5 and 0.6) are in range by
construction. -/
theorem confidence_passthrough :
    (∀ (input : AnalysisInput) (raw : String),
      (parse_analysis input raw).confidence_score =
        input.overall_confidence.getD (1/2)
      ∧ (parse_analysis input raw).hypotheses.map Hypothesis.confidence =
          (input.hypotheses.getD []).map fun h => h.confidence.getD (1/2))
    ∧ (∀ (fb : Feedback) (raw : String),
      (create_fallback_result fb raw).confidence_score = 1/2
      ∧ (create_fallback_result fb raw).hypotheses.map
          Hypothesis.confidence = [6/10])
    ∧ (0:ℚ) ≤ 1/2 ∧ (1:ℚ)/2 ≤ 1 ∧ (0:ℚ) ≤ 6/10 ∧ (6:ℚ)/10 ≤ 1 := by
  refine ⟨?_, fun fb raw => ⟨rfl, rfl⟩,
    by norm_num, by norm_num, by norm_num, by norm_num⟩
  intro input raw
  refine ⟨rfl, ?_⟩
  show ((input.hypotheses.getD []).enum.map _).map Hypothesis.confidence = _
  rw [List.map_map]
  have hcomp : (Hypothesis.confidence ∘ fun he : Nat × HypothesisInput =>
      ({ id := he.2.id.getD ("H" ++ toString he.1)
         problem_ids := he.2.problem_ids.getD []
         suggestion := he.2.suggestion.getD ""
         expected_effect := he.2.expected_effect.getD ""
         confidence := he.2.confidence.getD (1/2) } : Hypothesis)) =
      (fun h : HypothesisInput => h.confidence.getD (1/2)) ∘ Prod.snd := rfl
  rw [hcomp, ← List.map_map, List.enum_map_snd]

/-- C6: `run` is total — any exception from the current-prompt read, the
analysis step or the versioning step is caught, logged as an
`improvement_failed` event, and converted into
`ImprovementResult(success = false, error = str(exception))`; no
exception reaches the caller. -/
theorem run_converts_exceptions (threshold : ℚ) (s : PromptStore)
    (fb : Feedback) (lc : Nat) (target : String) :
    (∀ (e : String) (aOut : Except String AnalysisResult)
        (iOut : Except String PromptVersion),
      get_current s = .error e →
      run threshold s fb lc target aOut iOut =
        { result := failureResult (current_version s) e
          events := [.improvement_started fb.type target lc,
                     .analysis_started target, .improvement_failed e]
          versioner_invoked := false })
    ∧ (∀ (p e : String) (iOut : Except String PromptVersion),
      get_current s = .ok p →
      run threshold s fb lc target (.error e) iOut =
        { result := failureResult (current_version s) e
          events := [.improvement_started fb.type target lc,
                     .analysis_started target, .improvement_failed e]
          versioner_invoked := false })
    ∧ ∀ (p e : String) (ar : AnalysisResult),
      get_current s = .ok p →
      ¬ ar.confidence_score < threshold →
      run threshold s fb lc target (.ok ar) (.error e) =
        { result := failureResult (current_version s) e
          events := [.improvement_started fb.type target lc,
                     .analysis_started target,
                     .analysis_completed ar.confidence_score,
                     .versioning_started target, .improvement_failed e]
          versioner_invoked := true } := by
  refine ⟨?_, ?_, ?_⟩
  · intro e aOut iOut he
    simp only [run, he]
    rfl
  · intro p e iOut hp
    simp only [run, hp]
    rfl
  · intro p e ar hp hconf
    simp only [run, hp]
    rw [if_neg hconf]
    rfl

/-- C6 witness: a store read failure, an analysis exception, and a
versioning exception, each converted into a failed result. -/
theorem run_converts_exceptions_witness :
    get_current { files := [], active := none } =
      .error "FileNotFoundError: no prompt found"
    ∧ get_current store1 = .ok "You are the main agent."
    ∧ ¬ ((1:ℚ) < 0)
    ∧ run 0 { files := [], active := none } fb0 0 "main_agent"
        (.error "boom") (.error "boom2") =
        { result := failureResult 0 "FileNotFoundError: no prompt found"
          events := [.improvement_started "negative" "main_agent" 0,
                     .analysis_started "main_agent",
                     .improvement_failed "FileNotFoundError: no prompt found"]
          versioner_invoked := false }
    ∧ run 0 store1 fb0 0 "main_agent" (.error "analysis blew up")
        (.error "unused") =
        { result := failureResult 1 "analysis blew up"
          events := [.improvement_started "negative" "main_agent" 0,
                     .analysis_started "main_agent",
                     .improvement_failed "analysis blew up"]
          versioner_invoked := false }
    ∧ run 0 store1 fb0 0 "main_agent"
        (.ok { problems := [], hypotheses := [], evidence := [],
               confidence_score := 1, raw_analysis := "" })
        (.error "versioning blew up") =
        { result := failureResult 1 "versioning blew up"
          events := [.improvement_started "negative" "main_agent" 0,
                     .analysis_started "main_agent",
                     .analysis_completed 1,
                     .versioning_started "main_agent",
                     .improvement_failed "versioning blew up"]
          versioner_invoked := true } :=
  ⟨rfl, rfl, by decide,
    (run_converts_exceptions 0 { files := [], active := none } fb0 0
      "main_agent").1 "FileNotFoundError: no prompt found"
      (.error "boom") (.error "boom2") rfl,
    (run_converts_exceptions 0 store1 fb0 0 "main_agent").2.1
      "You are the main agent." "analysis blew up" (.error "unused") rfl,
    (run_converts_exceptions 0 store1 fb0 0 "main_agent").2.2
      "You are the main agent." "versioning blew up"
      { problems := [], hypotheses := [], evidence := [],
        confidence_score := 1, raw_analysis := "" } rfl (by decide)⟩

end SelfImprove
